import Mathlib

/-!
Verification of the transport-map backend core (src/backend/server.ts).

The TypeScript source is shallowly embedded below. Conventions:
- TypeScript numbers become ℚ (coordinates, minutes, distances) or Int
  (identifiers, hours); none of the verified code relies on float rounding.
- A JavaScript Date is embedded as a record of calendar components; the
  embedding pins the process timezone to UTC, so getHours/getFullYear and
  toISOString agree on components.
- JavaScript Map values are association lists with unique keys; Map.get is
  last-binding lookup (later set wins), Map.set/forEach keep insertion order.
- A JavaScript Set of keys is a duplicate-free list in insertion order.
- Fields typed number in TS but defensively checked with typeof at runtime
  (latitude, longitude, route_id) are Option-valued; the nullable trip_id
  and the possibly-empty timestamp string are Option-valued as well.
- haversineMeters is transcendental floating-point code; the detector is
  embedded parametrically in the distance function (DistFn), which is what
  every property about the containment state machine quantifies over.
-/

namespace TransportMap

/-- Calendar instant (embedded JavaScript Date, timezone fixed to UTC). -/
structure Date where
  year : Int
  month : Int
  day : Int
  hour : Int
  minute : Int
  second : Int
deriving DecidableEq, Repr

/-- Mixed-radix encoding of a Date, monotone in calendar order; used to
embed SQL LEAST/GREATEST on timestamps. -/
def Date.instant (d : Date) : Int :=
  ((((d.year * 13 + d.month) * 32 + d.day) * 25 + d.hour) * 61 + d.minute) * 61 + d.second

/-- SQL LEAST on timestamps. -/
def dateMin (a b : Date) : Date := if a.instant ≤ b.instant then a else b

/-- SQL GREATEST on timestamps. -/
def dateMax (a b : Date) : Date := if a.instant ≤ b.instant then b else a

/-- timeToMinutes: hours*60 + minutes + seconds/60. -/
def timeToMinutes (d : Date) : ℚ :=
  (d.hour : ℚ) * 60 + (d.minute : ℚ) + (d.second : ℚ) / 60

/-- The calendar-day components of localDateKey; the zero-padded
"YYYY-MM-DD" string of the source is injective in these components. -/
abbrev DayKey := Int × Int × Int

/-- localDateKey: the local calendar day of a Date. -/
def localDateKey (d : Date) : DayKey := (d.year, d.month, d.day)

-- Configuration constants of the backend.
def POLL_DAY_INTERVAL_MS : Int := 15000
def POLL_NIGHT_INTERVAL_MS : Int := 60000
def DAY_START_HOUR : Int := 6
def DAY_END_HOUR : Int := 24
def RETENTION_DAYS : Int := 30
def STOP_RADIUS_METERS : ℚ := 50
def STOP_EXIT_RADIUS_METERS : ℚ := 60

/-- getPollIntervalMs: day interval inside [DAY_START_HOUR, DAY_END_HOUR),
night interval otherwise. -/
def getPollIntervalMs (now : Date) : Int :=
  if DAY_START_HOUR ≤ now.hour ∧ now.hour < DAY_END_HOUR then POLL_DAY_INTERVAL_MS
  else POLL_NIGHT_INTERVAL_MS

/-- Vehicle position record of one poll cycle. -/
structure Vehicle where
  id : Int
  label : String
  latitude : Option ℚ
  longitude : Option ℚ
  timestamp : Option Date
  speed : Option ℚ
  route_id : Option Int
  trip_id : Option String
  vehicle_type : Option Int
  bike_accessible : Option String
  wheelchair_accessible : Option String
deriving DecidableEq, Repr

/-- Route reference record. -/
structure Route where
  agency_id : Int
  route_id : Int
  route_short_name : String
  route_long_name : String
  route_color : String
  route_type : Int
  route_desc : String
deriving DecidableEq, Repr

/-- Trip reference record. -/
structure Trip where
  route_id : Int
  trip_id : String
  trip_headsign : String
  direction_id : Int
  block_id : Int
  shape_id : String
deriving DecidableEq, Repr

/-- Stop reference record. -/
structure Stop where
  stop_id : Int
  stop_name : String
  stop_lat : ℚ
  stop_lon : ℚ
  location_type : Int
  stop_code : String
deriving DecidableEq, Repr

/-- StopTime reference record. -/
structure StopTime where
  trip_id : String
  stop_id : Int
  stop_sequence : Int
  arrival_time : Option String
  departure_time : Option String
  stop_headsign : Option String
  pickup_type : Option Int
  drop_off_type : Option Int
  shape_dist_traveled : Option ℚ
  timepoint : Option Int
deriving DecidableEq, Repr

/-- Shape polyline vertex. -/
structure ShapePoint where
  shape_id : String
  shape_pt_lat : ℚ
  shape_pt_lon : ℚ
  shape_pt_sequence : Int
  shape_dist_traveled : Option ℚ
deriving DecidableEq, Repr

/-- Value of tripByIdCache. -/
structure TripInfo where
  routeId : Int
  directionId : Int
deriving DecidableEq, Repr

/-- JS Map.get over an association list: the last binding wins, matching
Map construction from a list / repeated set. -/
def mapGet {α β : Type} [BEq α] (m : List (α × β)) (k : α) : Option β :=
  m.foldl (fun acc p => if p.1 == k then some p.2 else acc) none

/-- JS Map.set over an association list: replace in place or append. -/
def mapSet {α β : Type} [BEq α] (m : List (α × β)) (k : α) (v : β) : List (α × β) :=
  if m.any (fun p => p.1 == k) then m.map (fun p => if p.1 == k then (k, v) else p)
  else m ++ [(k, v)]

/-- The source pattern: ensure a key is present with a default, then
modify its value in place. -/
def mapUpsert {α β : Type} [BEq α] (m : List (α × β)) (k : α) (d : β) (f : β → β) :
    List (α × β) :=
  if m.any (fun p => p.1 == k) then m.map (fun p => if p.1 == k then (p.1, f p.2) else p)
  else m ++ [(k, f d)]

/-- stopById: Map built from stopsCache keyed by stop_id. -/
def stopByIdGet (stops : List Stop) (sid : Int) : Option Stop :=
  stops.foldl (fun acc s => if s.stop_id == sid then some s else acc) none

/-- The in-memory static caches read by the detector. -/
structure StaticCaches where
  stopsCache : List Stop
  tripByIdCache : List (String × TripInfo)
  stopIdsByTripId : List (String × List Int)
deriving DecidableEq, Repr

/-- Row pushed to the events array / stop_visits table. -/
structure StopVisitEvent where
  stopId : Int
  routeId : Int
  tripId : String
  vehicleId : Int
  observedAt : Date
  fetchedAt : Date
  latitude : ℚ
  longitude : ℚ
  distanceMeters : ℚ
deriving DecidableEq, Repr

/-- stopInsideByVehicle: the containment Set keyed by (vehicle id, stop id);
the source key string vid:sid is injective in the pair. -/
abbrev InsideSet := List (Int × Int)

/-- Set.add: append if absent. -/
def setAdd (s : InsideSet) (k : Int × Int) : InsideSet :=
  if s.contains k then s else s ++ [k]

/-- Set.delete: drop the key. -/
def setDelete (s : InsideSet) (k : Int × Int) : InsideSet :=
  s.filter (fun x => !(x == k))

/-- Distance oracle standing for haversineMeters(lat1, lon1, lat2, lon2). -/
abbrev DistFn := ℚ → ℚ → ℚ → ℚ → ℚ

/-- Body of the inner allowedStops.forEach of recordStopVisits: the
enter/exit step for one (vehicle, stop) pair, threading the containment
set and the events array. -/
def stopStep (hav : DistFn) (vehicleId routeId : Int) (tripId : String)
    (observedAt fetchedAt : Date) (lat lon : ℚ) (stops : List Stop)
    (acc : InsideSet × List StopVisitEvent) (stopId : Int) :
    InsideSet × List StopVisitEvent :=
  match stopByIdGet stops stopId with
  | none => acc
  | some stop =>
    let key := (vehicleId, stop.stop_id)
    if acc.1.contains key then
      let distance := hav lat lon stop.stop_lat stop.stop_lon
      if STOP_EXIT_RADIUS_METERS < distance then
        (setDelete acc.1 key,
         acc.2 ++ [{ stopId := stop.stop_id, routeId := routeId, tripId := tripId,
                     vehicleId := vehicleId, observedAt := observedAt,
                     fetchedAt := fetchedAt, latitude := lat, longitude := lon,
                     distanceMeters := distance }])
      else acc
    else
      let distance := hav lat lon stop.stop_lat stop.stop_lon
      if STOP_RADIUS_METERS < distance then acc
      else (setAdd acc.1 key, acc.2)

/-- Body of the vehicles.forEach of recordStopVisits: guards on valid
coordinates, a reported route, a non-empty known trip, and route
agreement; then folds the trip stop set. -/
def processVehicle (hav : DistFn) (caches : StaticCaches) (fetchedAt : Date)
    (acc : InsideSet × List StopVisitEvent) (v : Vehicle) :
    InsideSet × List StopVisitEvent :=
  match v.latitude, v.longitude, v.route_id with
  | some lat, some lon, some rid =>
    match v.trip_id with
    | none => acc
    | some tid =>
      if tid = ("") then acc
      else
        match mapGet caches.tripByIdCache tid, mapGet caches.stopIdsByTripId tid with
        | some tripInfo, some allowedStops =>
          if allowedStops.isEmpty then acc
          else if tripInfo.routeId != rid then acc
          else
            let observedAt := v.timestamp.getD fetchedAt
            allowedStops.foldl
              (stopStep hav v.id rid tid observedAt fetchedAt lat lon caches.stopsCache)
              acc
        | _, _ => acc
  | _, _, _ => acc

/-- recordStopVisits: one poll cycle of the geofence visit detector.
Returns the new containment set and the emitted StopVisit rows. -/
def recordStopVisits (hav : DistFn) (caches : StaticCaches) (inside : InsideSet)
    (fetchedAt : Date) (vehicles : List Vehicle) :
    InsideSet × List StopVisitEvent :=
  if caches.stopsCache.isEmpty then (inside, [])
  else vehicles.foldl (processVehicle hav caches fetchedAt) (inside, [])

/-- Several consecutive poll cycles, collecting the rows persisted in each. -/
def runPolls (hav : DistFn) (caches : StaticCaches)
    (polls : List (Date × List Vehicle)) (inside : InsideSet) :
    InsideSet × List StopVisitEvent :=
  polls.foldl (fun acc poll =>
    let r := recordStopVisits hav caches acc.1 poll.1 poll.2
    (r.1, acc.2 ++ r.2)) (inside, [])

/-- Ascending numeric sort, the effect of values.slice().sort((a, b) => a - b). -/
def insertAsc (x : ℚ) : List ℚ → List ℚ
  | [] => [x]
  | y :: ys => if x ≤ y then x :: y :: ys else y :: insertAsc x ys

/-- Ascending numeric sort of a list of numbers. -/
def sortAsc (l : List ℚ) : List ℚ := l.foldr insertAsc []

/-- Math.floor on a rational. -/
def ratFloor (q : ℚ) : Int := Int.fdiv q.num q.den

/-- Math.ceil on a rational. -/
def ratCeil (q : ℚ) : Int := -(ratFloor (-q))

/-- percentile: p-th percentile with linear interpolation between order
statistics; null on an empty list. -/
def percentile (values : List ℚ) (p : ℚ) : Option ℚ :=
  if values = [] then none
  else
    let sorted := sortAsc values
    let n : ℚ := (sorted.length : ℚ)
    let idx : ℚ := max 0 (min (n - 1) (p * (n - 1)))
    let lower := ratFloor idx
    let upper := ratCeil idx
    if lower = upper then some (sorted.getD lower.toNat 0)
    else
      let weight := idx - (lower : ℚ)
      some (sorted.getD lower.toNat 0 +
        (sorted.getD upper.toNat 0 - sorted.getD lower.toNat 0) * weight)

/-- buildPredictedTimes: sort each day ascending, then per run index take
the 50th percentile of the i-th time of every day having more than i runs. -/
def buildPredictedTimes (dayValues : List (List ℚ)) : List ℚ :=
  if dayValues = [] then []
  else
    let sortedDays := dayValues.map sortAsc
    let maxCount := sortedDays.foldl (fun acc values => max acc values.length) 0
    (List.range maxCount).foldl (fun predicted i =>
      let samples := (sortedDays.filter (fun values => decide (i < values.length))).map
        (fun values => values.getD i 0)
      if samples = [] then predicted
      else
        match percentile samples (1 / 2) with
        | some p50 => predicted ++ [p50]
        | none => predicted) []

/-- One StopVisit row as read back by the stop-analytics query. -/
structure Visit where
  routeId : Int
  observedAt : Date
deriving DecidableEq, Repr

/-- Per-(day, route) bucket of the handler: observed times of day, with the
predicted flag the source initialises and never reads. -/
structure RouteTimes where
  times : List ℚ
  predicted : Bool
deriving DecidableEq, Repr

/-- Displayed point of one day: a route with sorted minutes, observed or
predicted. -/
structure Point where
  routeId : Int
  minutes : List ℚ
  predicted : Bool
deriving DecidableEq, Repr

/-- One entry of the days array of the stop-analytics response. -/
structure DayEntry where
  date : DayKey
  isToday : Bool
  points : List Point
deriving DecidableEq, Repr

/-- visitsByDay: bucket the known visits by calendar day then by route,
collecting each visit time of day in minutes, in visit order. -/
def visitsByDayOf (dayKeys : List (DayKey × Bool)) (knownVisits : List Visit) :
    List (DayKey × List (Int × RouteTimes)) :=
  knownVisits.foldl (fun vbd row =>
    let dayKey := localDateKey row.observedAt
    if (dayKeys.map Prod.fst).contains dayKey then
      mapUpsert vbd dayKey [] (fun dayMap =>
        mapUpsert dayMap row.routeId { times := [], predicted := false }
          (fun rt => { rt with times := rt.times ++ [timeToMinutes row.observedAt] }))
    else vbd) []

/-- historyByRoute: for every non-today day of the window, append each
route's sorted run times as one historical sample sequence. -/
def historyByRouteOf (dayKeys : List (DayKey × Bool))
    (vbd : List (DayKey × List (Int × RouteTimes))) : List (Int × List (List ℚ)) :=
  dayKeys.foldl (fun hbr day =>
    if day.2 then hbr
    else
      match mapGet vbd day.1 with
      | none => hbr
      | some dayMap =>
        dayMap.foldl (fun hbr2 p =>
          mapUpsert hbr2 p.1 [] (fun seqs => seqs ++ [sortAsc p.2.times])) hbr) []

/-- predictedByRoute: the positional percentile merge per route. -/
def predictedByRouteOf (hbr : List (Int × List (List ℚ))) : List (Int × List ℚ) :=
  hbr.map (fun p => (p.1, buildPredictedTimes p.2))

/-- Points of the today entry: observed runs (non-predicted) followed by the
still-future part of each route's predicted sequence. -/
def mkTodayPoints (dayMap : Option (List (Int × RouteTimes)))
    (predictedByRoute : List (Int × List ℚ)) (nowMinutes : ℚ) : List Point :=
  (match dayMap with
   | none => []
   | some m => m.filterMap (fun p =>
      if p.2.times = [] then none
      else some { routeId := p.1, minutes := sortAsc p.2.times, predicted := false }))
  ++ predictedByRoute.filterMap (fun p =>
      let future := p.2.filter (fun value => decide (nowMinutes < value))
      if future = [] then none
      else some { routeId := p.1, minutes := future, predicted := true })

/-- Points of a non-today entry: the observed runs only. -/
def mkPastPoints (dayMap : Option (List (Int × RouteTimes))) : List Point :=
  match dayMap with
  | none => []
  | some m => m.filterMap (fun p =>
      if p.2.times = [] then none
      else some { routeId := p.1, minutes := sortAsc p.2.times, predicted := false })

/-- The days array of the stop-analytics response. -/
def buildDays (dayKeys : List (DayKey × Bool)) (nowMinutes : ℚ)
    (knownVisits : List Visit) : List DayEntry :=
  let vbd := visitsByDayOf dayKeys knownVisits
  let pbr := predictedByRouteOf (historyByRouteOf dayKeys vbd)
  dayKeys.map (fun day =>
    if day.2 then
      { date := day.1, isToday := day.2,
        points := mkTodayPoints (mapGet vbd day.1) pbr nowMinutes }
    else
      { date := day.1, isToday := day.2, points := mkPastPoints (mapGet vbd day.1) })

/-- Outcome of GET analytics/stop/:stopId (routes metadata of the response
is presentation data and not modelled). -/
inductive StopAnalyticsResult where
  | badRequest
  | stopNotFound
  | ok (stop : Stop) (days : List DayEntry)
deriving DecidableEq, Repr

/-- The stop-analytics handler: 400 on a non-numeric id, 404 on an unknown
stop, else the days array built from the visits of the 7-day window whose
route is still known. -/
def stopAnalyticsResult (stopsTable : List Stop) (stopIdParam : Option Int)
    (dayKeys : List (DayKey × Bool)) (nowMinutes : ℚ) (visits : List Visit)
    (knownRouteIds : List Int) : StopAnalyticsResult :=
  match stopIdParam with
  | none => StopAnalyticsResult.badRequest
  | some sid =>
    match stopsTable.find? (fun st => st.stop_id == sid) with
    | none => StopAnalyticsResult.stopNotFound
    | some st =>
      let knownVisits := visits.filter (fun v => knownRouteIds.contains v.routeId)
      StopAnalyticsResult.ok st (buildDays dayKeys nowMinutes knownVisits)

/-- The days list of a successful stop-analytics response. -/
def resultDays : StopAnalyticsResult → Option (List DayEntry)
  | StopAnalyticsResult.ok _ days => some days
  | _ => none

/-- Row of route_daily_stats. -/
structure StatsRow where
  day : DayKey
  routeId : Int
  firstSeenAt : Date
  lastSeenAt : Date
deriving DecidableEq, Repr

/-- The byRoute map of upsertRouteDailyStats: distinct numeric route ids in
first-seen order (the stored value is always fetchedAt, so only keys count). -/
def byRouteKeys (vehicles : List Vehicle) : List Int :=
  vehicles.foldl (fun acc v =>
    match v.route_id with
    | none => acc
    | some rid => if acc.contains rid then acc else acc ++ [rid]) []

/-- One row of the INSERT .. ON CONFLICT (day, route_id) DO UPDATE with
LEAST/GREATEST merge. -/
def upsertStatsRow (table : List StatsRow) (day : DayKey) (rid : Int) (t : Date) :
    List StatsRow :=
  if table.any (fun r => r.day == day && r.routeId == rid) then
    table.map (fun r =>
      if r.day == day && r.routeId == rid then
        { r with firstSeenAt := dateMin r.firstSeenAt t,
                 lastSeenAt := dateMax r.lastSeenAt t }
      else r)
  else table ++ [{ day := day, routeId := rid, firstSeenAt := t, lastSeenAt := t }]

/-- upsertRouteDailyStats: widen the (day, route) rows of every route seen
in this cycle with min/max of the cycle fetch time. -/
def upsertRouteDailyStats (fetchedAt : Date) (vehicles : List Vehicle)
    (table : List StatsRow) : List StatsRow :=
  let keys := byRouteKeys vehicles
  if keys = [] then table
  else
    let day := localDateKey fetchedAt
    keys.foldl (fun tbl rid => upsertStatsRow tbl day rid fetchedAt) table

/-- The five reference collections returned by the Promise.all fetch. -/
structure FetchedStatic where
  routesData : List Route
  tripsData : List Trip
  stopsData : List Stop
  stopTimesData : List StopTime
  shapesData : List ShapePoint
deriving DecidableEq, Repr

/-- Persisted reference tables and the in-memory caches touched by
refreshStaticData.  Table rows carry the same data as the fetched records
(the drizzle mapping renames columns only); stopById is derived from
stopsCache and not stored separately. -/
structure RefState where
  routesTable : List Route
  tripsTable : List Trip
  stopsTable : List Stop
  stopTimesTable : List StopTime
  shapesTable : List ShapePoint
  stopsCache : List Stop
  tripByIdCache : List (String × TripInfo)
  stopIdsByTripId : List (String × List Int)
deriving DecidableEq, Repr

/-- upsertRoutes: INSERT .. ON CONFLICT (route_id) DO UPDATE of every
fetched route row; a no-op on empty data. -/
def upsertRoutes (data : List Route) (table : List Route) : List Route :=
  if data.isEmpty then table
  else
    data.foldl (fun tbl r =>
      if tbl.any (fun x => x.route_id == r.route_id) then
        tbl.map (fun x => if x.route_id == r.route_id then r else x)
      else tbl ++ [r]) table

/-- buildStaticCaches: swap the in-memory caches to fresh maps built from
the fetched data. -/
def buildStaticCaches (tripsData : List Trip) (stopsData : List Stop)
    (stopTimesData : List StopTime) (s : RefState) : RefState :=
  { s with
    stopsCache := stopsData,
    tripByIdCache := tripsData.foldl (fun m t =>
      mapSet m t.trip_id { routeId := t.route_id, directionId := t.direction_id }) [],
    stopIdsByTripId := stopTimesData.foldl (fun m st =>
      mapUpsert m st.trip_id [] (fun ids =>
        if ids.contains st.stop_id then ids else ids ++ [st.stop_id])) [] }

/-- The sequence of awaited persistence and cache steps of refreshStaticData
after the fetches resolve, in source order. -/
def refreshSteps (d : FetchedStatic) : List (RefState → RefState) :=
  [ fun s => { s with tripsTable := [] },
    fun s => { s with stopsTable := [] },
    fun s => { s with stopTimesTable := [] },
    fun s => { s with shapesTable := [] },
    fun s => { s with routesTable := upsertRoutes d.routesData s.routesTable },
    fun s => { s with tripsTable := s.tripsTable ++ d.tripsData },
    fun s => { s with stopsTable := s.stopsTable ++ d.stopsData },
    fun s => { s with stopsCache := s.stopsTable },
    fun s => { s with stopTimesTable := s.stopTimesTable ++ d.stopTimesData },
    fun s => { s with shapesTable := s.shapesTable ++ d.shapesData },
    buildStaticCaches d.tripsData d.stopsData d.stopTimesData ]

/-- refreshStaticData, with explicit failure points: fetched = none models a
rejected Promise.all (the fetches complete before any mutation), and
failAt = some k models the k-th awaited persistence step throwing, the
earlier steps having committed.  Returns the resulting state and whether
the refresh succeeded. -/
def refreshStaticData (fetched : Option FetchedStatic) (failAt : Option Nat)
    (s : RefState) : RefState × Bool :=
  match fetched with
  | none => (s, false)
  | some d =>
    match failAt with
    | none => ((refreshSteps d).foldl (fun st f => f st) s, true)
    | some k => (((refreshSteps d).take k).foldl (fun st f => f st) s, false)

/-- Response of GET proxy/:resource. -/
inductive ProxyResult (α : Type) where
  | notFound
  | cachedVehicles (fetchedAt : Option Date) (vehicles : List Vehicle)
  | fetched (data : α)
deriving DecidableEq, Repr

/-- The allowed proxy resources. -/
def allowedResources : List String :=
  [("vehicles"), ("routes"), ("trips"), ("stops"), ("stop_times"), ("shapes")]

/-- The proxy handler: 404 on unknown resources; the vehicles resource is
served from the last poll cycle only when that cycle is non-empty, else the
raw provider fetch result is returned unwrapped. -/
def proxyResource {α : Type} (resource : String) (latestVehiclesCache : List Vehicle)
    (latestVehiclesFetchedAt : Option Date) (freshData : α) : ProxyResult α :=
  if !(allowedResources.contains resource) then ProxyResult.notFound
  else if resource == ("vehicles") && decide (0 < latestVehiclesCache.length) then
    ProxyResult.cachedVehicles latestVehiclesFetchedAt latestVehiclesCache
  else ProxyResult.fetched freshData

/-- The latest-vehicles cache written by pollVehicles. -/
structure VehiclesCacheState where
  latestVehiclesCache : List Vehicle
  latestVehiclesFetchedAt : Option Date
deriving DecidableEq, Repr

/-- The cache update of pollVehicles: the fetched cycle replaces the cache
wholesale, empty or not. -/
def pollVehiclesCacheUpdate (fetchedAt : Date) (vehicles : List Vehicle)
    (_s : VehiclesCacheState) : VehiclesCacheState :=
  { latestVehiclesCache := vehicles, latestVehiclesFetchedAt := some fetchedAt }

/-- Caches describing one stop s serviced by one trip tid of route
info.routeId: the minimal static world of the hysteresis scenarios. -/
def singleStopCaches (s : Stop) (tid : String) (info : TripInfo) : StaticCaches :=
  { stopsCache := [s],
    tripByIdCache := [(tid, info)],
    stopIdsByTripId := [(tid, [s.stop_id])] }

/-- A vehicle with valid coordinates, reported route rid and trip tid at a
given position. -/
def probeVehicle (vid rid : Int) (tid : String) (lat lon : ℚ) : Vehicle :=
  { id := vid, label := "", latitude := some lat, longitude := some lon,
    timestamp := none, speed := none, route_id := some rid, trip_id := some tid,
    vehicle_type := none, bike_accessible := none, wheelchair_accessible := none }

/-- Distance oracle whose value is the vehicle latitude; used to drive the
detector through prescribed distances in concrete runs. -/
def latDist : DistFn := fun lat _ _ _ => lat

/-- The emitted visit is for a stop on the vehicle trip and the trip route
agrees with the reported route recorded in the event. -/
def visitOnTrip (caches : StaticCaches) (e : StopVisitEvent) : Prop :=
  ∃ info allowed,
    mapGet caches.tripByIdCache e.tripId = some info ∧
    info.routeId = e.routeId ∧
    mapGet caches.stopIdsByTripId e.tripId = some allowed ∧
    e.stopId ∈ allowed

/-- Row r2 widens row r by the cycle time t: same key, first seen only ever
decreased and last seen only ever increased, each either kept or replaced
by the extremal merge with t. -/
def statsWidened (r : StatsRow) (t : Date) (r2 : StatsRow) : Prop :=
  r2.day = r.day ∧ r2.routeId = r.routeId ∧
  r2.firstSeenAt.instant ≤ r.firstSeenAt.instant ∧
  r.lastSeenAt.instant ≤ r2.lastSeenAt.instant ∧
  (r2.firstSeenAt = r.firstSeenAt ∨ r2.firstSeenAt = dateMin r.firstSeenAt t) ∧
  (r2.lastSeenAt = r.lastSeenAt ∨ r2.lastSeenAt = dateMax r.lastSeenAt t)

/-- Stop 42 of the concrete scenarios. -/
def sampleStop : Stop :=
  { stop_id := 42, stop_name := "Stop", stop_lat := 0, stop_lon := 0,
    location_type := 0, stop_code := "C" }

/-- A trip row of the concrete refresh scenario. -/
def sampleTrip : Trip :=
  { route_id := 1, trip_id := "t1", trip_headsign := "h", direction_id := 0,
    block_id := 0, shape_id := "sh" }

/-- Pre-refresh state holding one persisted trip row. -/
def refState0 : RefState :=
  { routesTable := [], tripsTable := [sampleTrip], stopsTable := [],
    stopTimesTable := [], shapesTable := [], stopsCache := [],
    tripByIdCache := [], stopIdsByTripId := [] }

/-- A successful fetch of empty reference data. -/
def emptyFetched : FetchedStatic :=
  { routesData := [], tripsData := [], stopsData := [], stopTimesData := [],
    shapesData := [] }

/-- The 7-day window of the analytics scenario: 2026-10-06 .. 2026-10-12,
the last day being today. -/
def scenarioDayKeys : List (DayKey × Bool) :=
  [((2026, 10, 6), false), ((2026, 10, 7), false), ((2026, 10, 8), false),
   ((2026, 10, 9), false), ((2026, 10, 10), false), ((2026, 10, 11), false),
   ((2026, 10, 12), true)]

/-- Route 7 visits of the scenario: 08:01 and 08:16 yesterday, 08:03 today. -/
def scenarioVisits : List Visit :=
  [{ routeId := 7, observedAt := ⟨2026, 10, 11, 8, 1, 0⟩ },
   { routeId := 7, observedAt := ⟨2026, 10, 11, 8, 16, 0⟩ },
   { routeId := 7, observedAt := ⟨2026, 10, 12, 8, 3, 0⟩ }]

/-- C9: getPollIntervalMs returns the 15000 ms day interval whenever the
local hour-of-day lies in [DAY_START_HOUR, DAY_END_HOUR) = [06:00, 24:00),
and the 60000 ms night interval otherwise; in particular day at 07:00 and
night at 02:00. -/
theorem getPollIntervalMs_selection :
    (POLL_DAY_INTERVAL_MS = 15000 ∧ POLL_NIGHT_INTERVAL_MS = 60000) ∧
    ∀ d : Date,
      (DAY_START_HOUR ≤ d.hour ∧ d.hour < DAY_END_HOUR →
        getPollIntervalMs d = 15000) ∧
      (¬(DAY_START_HOUR ≤ d.hour ∧ d.hour < DAY_END_HOUR) →
        getPollIntervalMs d = 60000) := by
  refine ⟨⟨rfl, rfl⟩, fun d => ⟨fun h => ?_, fun h => ?_⟩⟩
  · simp [getPollIntervalMs, h, POLL_DAY_INTERVAL_MS]
  · simp [getPollIntervalMs, h, POLL_NIGHT_INTERVAL_MS]

/-- Witness for C9: 07:00 local time uses the day interval, 02:00 the
night interval. -/
theorem getPollIntervalMs_selection_witness :
    getPollIntervalMs ⟨2026, 10, 12, 7, 0, 0⟩ = 15000 ∧
    getPollIntervalMs ⟨2026, 10, 12, 2, 0, 0⟩ = 60000 :=
  ⟨(getPollIntervalMs_selection.2 ⟨2026, 10, 12, 7, 0, 0⟩).1 (by decide),
   (getPollIntervalMs_selection.2 ⟨2026, 10, 12, 2, 0, 0⟩).2 (by decide)⟩

/-- C10: the cached poll cycle is served only when non-empty: with at least
one cached vehicle the vehicles proxy answers with the wrapped cache, and
after a successful poll that returned an empty list it falls through to the
fresh provider fetch and returns the raw fetched data unwrapped. -/
theorem vehiclesProxy_empty_cache_fallthrough :
    ∀ (α : Type) (freshData : α) (cache : List Vehicle) (fat : Option Date)
      (fetchedAt : Date) (st : VehiclesCacheState),
      (cache ≠ [] →
        proxyResource ("vehicles") cache fat freshData =
          ProxyResult.cachedVehicles fat cache) ∧
      (proxyResource ("vehicles")
          (pollVehiclesCacheUpdate fetchedAt [] st).latestVehiclesCache
          (pollVehiclesCacheUpdate fetchedAt [] st).latestVehiclesFetchedAt
          freshData = ProxyResult.fetched freshData) := by
  intro α freshData cache fat fetchedAt st
  constructor
  · intro h
    have hlen : 0 < cache.length := List.length_pos.mpr h
    simp [proxyResource, allowedResources, hlen]
  · rfl

/-- Witness for C10: a singleton cache is served wrapped. -/
theorem vehiclesProxy_empty_cache_fallthrough_witness :
    proxyResource ("vehicles") [probeVehicle 1 7 ("t1") 0 0] none (3 : Nat) =
      ProxyResult.cachedVehicles none [probeVehicle 1 7 ("t1") 0 0] :=
  (vehiclesProxy_empty_cache_fallthrough Nat 3 [probeVehicle 1 7 ("t1") 0 0] none
    ⟨2026, 10, 12, 8, 0, 0⟩ ⟨[], none⟩).1 (by simp)

/-- C7 counterexample: refreshStaticData fails at the second persistence
step (db.delete(stops) throwing after db.delete(trips) committed) and the
resulting state differs from the pre-refresh state: the trips table was
already emptied. The claim that any failure leaves everything equal to the
pre-refresh state is false, because the per-table deletes and inserts are
not wrapped in a transaction. -/
theorem staticRefresh_atomicity_counterexample :
    (refreshStaticData (some emptyFetched) (some 1) refState0).2 = false ∧
    (refreshStaticData (some emptyFetched) (some 1) refState0).1 ≠ refState0 := by
  constructor
  · rfl
  · decide

/-- C7 amended: if refreshStaticData fails during the provider-fetch phase
(the Promise.all settles before any mutation), the in-memory caches and the
persisted reference tables are left exactly as before the refresh; a
failure during the persistence phase, however, can leave the tables
partially replaced. -/
theorem staticRefresh_fetch_failure_atomic :
    ∀ (failAt : Option Nat) (d : FetchedStatic) (s : RefState),
      refreshStaticData none failAt s = (s, false) ∧
      refreshStaticData (some d) (some 0) s = (s, false) := by
  intro failAt d s
  exact ⟨rfl, rfl⟩

/-- C4: buildPredictedTimes sorts each historical day ascending and merges
positionally by the 50th percentile: on [[5,20],[7,18],[6,22]] it predicts
[6, 20], and percentile of a single-sample list is that sample for every
percentile rank. -/
theorem buildPredictedTimes_percentile_merge :
    buildPredictedTimes [[5, 20], [7, 18], [6, 22]] = [6, 20] ∧
    ∀ (x p : ℚ), percentile [x] p = some x := by
  constructor
  · simp only [buildPredictedTimes]
    rw [if_neg (by simp)]
    norm_num [sortAsc, insertAsc, List.range_succ]
    simp only [percentile]
    norm_num [sortAsc, insertAsc, ratFloor, ratCeil]
    simp
  · intro x p
    have hlen : ((sortAsc [x]).length : ℚ) - 1 = 0 := by
      simp [sortAsc, insertAsc]
    unfold percentile
    rw [if_neg (by simp)]
    simp only [hlen, mul_zero, min_self, max_self]
    rfl

theorem mapGet_singleton {β : Type} (k : String) (v : β) : mapGet [(k, v)] k = some v := by
  simp [mapGet]

theorem stopByIdGet_self (s : Stop) : stopByIdGet [s] s.stop_id = some s := by
  simp [stopByIdGet]

theorem setDelete_append_self (k : Int × Int) (l : InsideSet) (h : k ∉ l) :
    setDelete (l ++ [k]) k = l := by
  unfold setDelete
  rw [List.filter_append]
  have h1 : l.filter (fun x => !(x == k)) = l := by
    apply List.filter_eq_self.mpr
    intro a ha
    simp only [Bool.not_eq_true', beq_eq_false_iff_ne, ne_eq]
    rintro rfl
    exact h ha
  rw [h1]
  simp

theorem recordStopVisits_probe (hav : DistFn) (s : Stop) (tid : String) (info : TripInfo)
    (vid : Int) (inside : InsideSet) (fa : Date) (lat lon : ℚ) (htid : tid ≠ ("")) :
    recordStopVisits hav (singleStopCaches s tid info) inside fa
      [probeVehicle vid info.routeId tid lat lon] =
      stopStep hav vid info.routeId tid fa fa lat lon [s] (inside, []) s.stop_id := by
  simp [recordStopVisits, singleStopCaches, processVehicle, probeVehicle, htid,
    mapGet_singleton]

theorem stopStep_stay_outside (hav : DistFn) (vid rid : Int) (tid : String)
    (oa fa : Date) (lat lon : ℚ) (s : Stop) (inside : InsideSet)
    (ev : List StopVisitEvent)
    (h1 : (vid, s.stop_id) ∉ inside)
    (h2 : STOP_RADIUS_METERS < hav lat lon s.stop_lat s.stop_lon) :
    stopStep hav vid rid tid oa fa lat lon [s] (inside, ev) s.stop_id = (inside, ev) := by
  simp only [stopStep, stopByIdGet_self]
  rw [if_neg (by simp [h1]), if_pos h2]

theorem stopStep_enter (hav : DistFn) (vid rid : Int) (tid : String)
    (oa fa : Date) (lat lon : ℚ) (s : Stop) (inside : InsideSet)
    (ev : List StopVisitEvent)
    (h1 : (vid, s.stop_id) ∉ inside)
    (h2 : hav lat lon s.stop_lat s.stop_lon ≤ STOP_RADIUS_METERS) :
    stopStep hav vid rid tid oa fa lat lon [s] (inside, ev) s.stop_id =
      (inside ++ [(vid, s.stop_id)], ev) := by
  simp only [stopStep, stopByIdGet_self]
  rw [if_neg (by simp [h1]), if_neg (not_lt.mpr h2)]
  simp [setAdd, h1]

theorem stopStep_stay_inside (hav : DistFn) (vid rid : Int) (tid : String)
    (oa fa : Date) (lat lon : ℚ) (s : Stop) (inside : InsideSet)
    (ev : List StopVisitEvent)
    (h1 : inside.contains (vid, s.stop_id) = true)
    (h2 : hav lat lon s.stop_lat s.stop_lon ≤ STOP_EXIT_RADIUS_METERS) :
    stopStep hav vid rid tid oa fa lat lon [s] (inside, ev) s.stop_id = (inside, ev) := by
  simp only [stopStep, stopByIdGet_self]
  rw [if_pos h1, if_neg (not_lt.mpr h2)]

theorem stopStep_exit (hav : DistFn) (vid rid : Int) (tid : String)
    (oa fa : Date) (lat lon : ℚ) (s : Stop) (inside : InsideSet)
    (ev : List StopVisitEvent)
    (h1 : inside.contains (vid, s.stop_id) = true)
    (h2 : STOP_EXIT_RADIUS_METERS < hav lat lon s.stop_lat s.stop_lon) :
    stopStep hav vid rid tid oa fa lat lon [s] (inside, ev) s.stop_id =
      (setDelete inside (vid, s.stop_id),
       ev ++ [{ stopId := s.stop_id, routeId := rid, tripId := tid, vehicleId := vid,
                observedAt := oa, fetchedAt := fa, latitude := lat, longitude := lon,
                distanceMeters := hav lat lon s.stop_lat s.stop_lon }]) := by
  simp only [stopStep, stopByIdGet_self]
  rw [if_pos h1, if_pos h2]

/-- C1: hysteresis of the geofence detector. For a vehicle with valid
coordinates, known trip with non-empty stop set and matching route, any
sequence of polls whose distances to the stop stay strictly between the
entry radius (50 m) and the exit radius (60 m) — in particular oscillating
between 55 m and 58 m — emits no StopVisit and leaves the containment set
unchanged, whereas a poll at 40 m followed by one at 65 m emits exactly one
StopVisit, the exit event recorded at distance 65. -/
theorem recordStopVisits_hysteresis (hav : DistFn) (s : Stop) (tid : String)
    (info : TripInfo) (vid : Int) (inside : InsideSet)
    (polls : List (Date × ℚ × ℚ)) (fa1 fa2 : Date) (lat1 lon1 lat2 lon2 : ℚ)
    (htid : tid ≠ (""))
    (hout : (vid, s.stop_id) ∉ inside)
    (hosc : ∀ q ∈ polls,
      STOP_RADIUS_METERS < hav q.2.1 q.2.2 s.stop_lat s.stop_lon ∧
      hav q.2.1 q.2.2 s.stop_lat s.stop_lon < STOP_EXIT_RADIUS_METERS)
    (h40 : hav lat1 lon1 s.stop_lat s.stop_lon = 40)
    (h65 : hav lat2 lon2 s.stop_lat s.stop_lon = 65) :
    runPolls hav (singleStopCaches s tid info)
      (polls.map (fun q => (q.1, [probeVehicle vid info.routeId tid q.2.1 q.2.2])))
      inside = (inside, []) ∧
    runPolls hav (singleStopCaches s tid info)
      [(fa1, [probeVehicle vid info.routeId tid lat1 lon1]),
       (fa2, [probeVehicle vid info.routeId tid lat2 lon2])] inside =
      (inside,
       [{ stopId := s.stop_id, routeId := info.routeId, tripId := tid,
          vehicleId := vid, observedAt := fa2, fetchedAt := fa2,
          latitude := lat2, longitude := lon2, distanceMeters := 65 }]) := by
  constructor
  · induction polls with
    | nil => rfl
    | cons q qs ih =>
      have hq := hosc q (List.mem_cons_self q qs)
      have hcycle : recordStopVisits hav (singleStopCaches s tid info) inside q.1
          [probeVehicle vid info.routeId tid q.2.1 q.2.2] = (inside, []) := by
        rw [recordStopVisits_probe hav s tid info vid inside q.1 q.2.1 q.2.2 htid]
        exact stopStep_stay_outside hav vid info.routeId tid q.1 q.1 q.2.1 q.2.2 s
          inside [] hout hq.1
      simp only [List.map_cons, runPolls, List.foldl_cons]
      rw [hcycle]
      exact ih (fun p hp => hosc p (List.mem_cons_of_mem q hp))
  · have hc1 : recordStopVisits hav (singleStopCaches s tid info) inside fa1
        [probeVehicle vid info.routeId tid lat1 lon1] =
        (inside ++ [(vid, s.stop_id)], []) := by
      rw [recordStopVisits_probe hav s tid info vid inside fa1 lat1 lon1 htid]
      exact stopStep_enter hav vid info.routeId tid fa1 fa1 lat1 lon1 s inside []
        hout (by rw [h40]; norm_num [STOP_RADIUS_METERS])
    have hc2 : recordStopVisits hav (singleStopCaches s tid info)
        (inside ++ [(vid, s.stop_id)]) fa2
        [probeVehicle vid info.routeId tid lat2 lon2] =
        (inside,
         [{ stopId := s.stop_id, routeId := info.routeId, tripId := tid,
            vehicleId := vid, observedAt := fa2, fetchedAt := fa2,
            latitude := lat2, longitude := lon2, distanceMeters := 65 }]) := by
      rw [recordStopVisits_probe hav s tid info vid (inside ++ [(vid, s.stop_id)])
        fa2 lat2 lon2 htid]
      rw [stopStep_exit hav vid info.routeId tid fa2 fa2 lat2 lon2 s
        (inside ++ [(vid, s.stop_id)]) [] (by simp)
        (by rw [h65]; norm_num [STOP_EXIT_RADIUS_METERS])]
      rw [setDelete_append_self (vid, s.stop_id) inside hout, h65]
      simp
    simp only [runPolls, List.foldl_cons, List.foldl_nil]
    rw [hc1]
    simp only [List.nil_append]
    rw [hc2]

/-- Witness for C1: with distance oscillating 55 m / 58 m no event is
emitted, and 40 m then 65 m emits exactly the one exit event. -/
theorem recordStopVisits_hysteresis_witness :
    runPolls latDist (singleStopCaches sampleStop ("t1") ⟨7, 0⟩)
      ([(⟨2026, 10, 12, 8, 0, 0⟩, ((55 : ℚ), (0 : ℚ))),
        (⟨2026, 10, 12, 8, 0, 15⟩, ((58 : ℚ), (0 : ℚ))),
        (⟨2026, 10, 12, 8, 0, 30⟩, ((55 : ℚ), (0 : ℚ)))].map
        (fun q => (q.1, [probeVehicle 1 (TripInfo.mk 7 0).routeId ("t1") q.2.1 q.2.2])))
      [] = ([], []) ∧
    runPolls latDist (singleStopCaches sampleStop ("t1") ⟨7, 0⟩)
      [(⟨2026, 10, 12, 8, 1, 0⟩, [probeVehicle 1 (TripInfo.mk 7 0).routeId ("t1") 40 0]),
       (⟨2026, 10, 12, 8, 2, 0⟩, [probeVehicle 1 (TripInfo.mk 7 0).routeId ("t1") 65 0])]
      [] =
      ([],
       [{ stopId := sampleStop.stop_id, routeId := (TripInfo.mk 7 0).routeId,
          tripId := ("t1"), vehicleId := 1, observedAt := ⟨2026, 10, 12, 8, 2, 0⟩,
          fetchedAt := ⟨2026, 10, 12, 8, 2, 0⟩, latitude := 65, longitude := 0,
          distanceMeters := 65 }]) :=
  recordStopVisits_hysteresis latDist sampleStop ("t1") ⟨7, 0⟩ 1 []
    [(⟨2026, 10, 12, 8, 0, 0⟩, (55, 0)), (⟨2026, 10, 12, 8, 0, 15⟩, (58, 0)),
     (⟨2026, 10, 12, 8, 0, 30⟩, (55, 0))]
    ⟨2026, 10, 12, 8, 1, 0⟩ ⟨2026, 10, 12, 8, 2, 0⟩ 40 0 65 0
    (by decide) (by simp)
    (by
      intro q hq
      simp only [List.mem_cons, List.not_mem_nil, or_false] at hq
      rcases hq with rfl | rfl | rfl <;>
        exact ⟨by norm_num [latDist, STOP_RADIUS_METERS],
               by norm_num [latDist, STOP_EXIT_RADIUS_METERS]⟩)
    rfl rfl

/-- C3: idempotence of containment entry. Starting from a state where the
(vehicle, stop) pair is outside, the same in-zone position (distance within
the 50 m entry radius) fed in two successive cycles marks the pair inside
exactly once, emits no StopVisit in either cycle, and the second cycle
leaves the containment set unchanged: events are emitted only on exit,
never on entry. -/
theorem recordStopVisits_entry_idempotent (hav : DistFn) (s : Stop) (tid : String)
    (info : TripInfo) (vid : Int) (inside : InsideSet) (fa1 fa2 : Date)
    (lat lon : ℚ)
    (htid : tid ≠ (""))
    (hout : (vid, s.stop_id) ∉ inside)
    (hin : hav lat lon s.stop_lat s.stop_lon ≤ STOP_RADIUS_METERS) :
    recordStopVisits hav (singleStopCaches s tid info) inside fa1
      [probeVehicle vid info.routeId tid lat lon] =
      (inside ++ [(vid, s.stop_id)], []) ∧
    recordStopVisits hav (singleStopCaches s tid info) (inside ++ [(vid, s.stop_id)])
      fa2 [probeVehicle vid info.routeId tid lat lon] =
      (inside ++ [(vid, s.stop_id)], []) := by
  constructor
  · rw [recordStopVisits_probe hav s tid info vid inside fa1 lat lon htid]
    exact stopStep_enter hav vid info.routeId tid fa1 fa1 lat lon s inside [] hout hin
  · rw [recordStopVisits_probe hav s tid info vid (inside ++ [(vid, s.stop_id)])
      fa2 lat lon htid]
    exact stopStep_stay_inside hav vid info.routeId tid fa2 fa2 lat lon s
      (inside ++ [(vid, s.stop_id)]) [] (by simp)
      (le_trans hin (by norm_num [STOP_RADIUS_METERS, STOP_EXIT_RADIUS_METERS]))

/-- Witness for C3: a concrete pair entering at 30 m twice. -/
theorem recordStopVisits_entry_idempotent_witness :
    recordStopVisits latDist (singleStopCaches sampleStop ("t1") ⟨7, 0⟩) []
      ⟨2026, 10, 12, 8, 0, 0⟩ [probeVehicle 1 (TripInfo.mk 7 0).routeId ("t1") 30 0] =
      ([] ++ [(1, sampleStop.stop_id)], []) ∧
    recordStopVisits latDist (singleStopCaches sampleStop ("t1") ⟨7, 0⟩)
      ([] ++ [(1, sampleStop.stop_id)]) ⟨2026, 10, 12, 8, 0, 15⟩
      [probeVehicle 1 (TripInfo.mk 7 0).routeId ("t1") 30 0] =
      ([] ++ [(1, sampleStop.stop_id)], []) :=
  recordStopVisits_entry_idempotent latDist sampleStop ("t1") ⟨7, 0⟩ 1 []
    ⟨2026, 10, 12, 8, 0, 0⟩ ⟨2026, 10, 12, 8, 0, 15⟩ 30 0 (by decide) (by simp)
    (by norm_num [latDist, STOP_RADIUS_METERS])

theorem stopByIdGet_stop_id (stops : List Stop) (sid : Int) (st : Stop)
    (h : stopByIdGet stops sid = some st) : st.stop_id = sid := by
  unfold stopByIdGet at h
  suffices aux : ∀ (l : List Stop) (acc : Option Stop),
      (∀ x, acc = some x → x.stop_id = sid) →
      ∀ x, l.foldl (fun acc s => if s.stop_id == sid then some s else acc) acc = some x →
        x.stop_id = sid by
    exact aux stops none (by intro x hx; cases hx) st h
  intro l
  induction l with
  | nil => intro acc hacc x hx; exact hacc x hx
  | cons y ys ih =>
    intro acc hacc x hx
    simp only [List.foldl_cons] at hx
    refine ih _ ?_ x hx
    intro z hz
    by_cases hy : (y.stop_id == sid) = true
    · rw [if_pos hy] at hz
      cases hz
      exact eq_of_beq hy
    · rw [if_neg hy] at hz
      exact hacc z hz

theorem foldl_stopStep_visitOnTrip (hav : DistFn) (caches : StaticCaches)
    (vid rid : Int) (tid : String) (oa fa : Date) (lat lon : ℚ)
    (info : TripInfo) (allowed : List Int)
    (htrip : mapGet caches.tripByIdCache tid = some info)
    (hrid : info.routeId = rid)
    (hstops : mapGet caches.stopIdsByTripId tid = some allowed) :
    ∀ (l : List Int), (∀ x ∈ l, x ∈ allowed) →
    ∀ (acc : InsideSet × List StopVisitEvent),
      (∀ e ∈ acc.2, visitOnTrip caches e) →
      ∀ e ∈ (l.foldl (stopStep hav vid rid tid oa fa lat lon caches.stopsCache) acc).2,
        visitOnTrip caches e := by
  intro l
  induction l with
  | nil => intro _ acc hacc e he; exact hacc e he
  | cons sid sids ih =>
    intro hl acc hacc e he
    simp only [List.foldl_cons] at he
    refine ih (fun x hx => hl x (List.mem_cons_of_mem sid hx)) _ ?_ e he
    intro e2 he2
    unfold stopStep at he2
    cases hsb : stopByIdGet caches.stopsCache sid with
    | none =>
      rw [hsb] at he2
      exact hacc e2 he2
    | some st =>
      rw [hsb] at he2
      dsimp only at he2
      split_ifs at he2 with hc hd hd
      · rcases List.mem_append.mp he2 with hold | hnew
        · exact hacc e2 hold
        · have he2' := List.mem_singleton.mp hnew
          subst he2'
          exact ⟨info, allowed, htrip, hrid, hstops, by
            rw [stopByIdGet_stop_id caches.stopsCache sid st hsb]
            exact hl sid (List.mem_cons_self sid sids)⟩
      · exact hacc e2 he2
      · exact hacc e2 he2
      · exact hacc e2 he2

theorem processVehicle_visitOnTrip (hav : DistFn) (caches : StaticCaches) (fa : Date)
    (acc : InsideSet × List StopVisitEvent) (v : Vehicle)
    (hacc : ∀ e ∈ acc.2, visitOnTrip caches e) :
    ∀ e ∈ (processVehicle hav caches fa acc v).2, visitOnTrip caches e := by
  intro e he
  unfold processVehicle at he
  rcases v with ⟨vId, vLabel, vLat, vLon, vTs, vSpeed, vRid, vTid, vVt, vBa, vWa⟩
  cases vLat with
  | none => exact hacc e he
  | some lat =>
  cases vLon with
  | none => exact hacc e he
  | some lon =>
  cases vRid with
  | none => exact hacc e he
  | some rid =>
  cases vTid with
  | none => exact hacc e he
  | some tid =>
  dsimp only at he
  by_cases hte : tid = ("")
  · rw [if_pos hte] at he
    exact hacc e he
  · rw [if_neg hte] at he
    cases htrip : mapGet caches.tripByIdCache tid with
    | none =>
      rw [htrip] at he
      cases hstops : mapGet caches.stopIdsByTripId tid with
      | none => rw [hstops] at he; exact hacc e he
      | some allowed => rw [hstops] at he; exact hacc e he
    | some info =>
      rw [htrip] at he
      cases hstops : mapGet caches.stopIdsByTripId tid with
      | none => rw [hstops] at he; exact hacc e he
      | some allowed =>
        rw [hstops] at he
        dsimp only at he
        by_cases hemp : allowed.isEmpty = true
        · rw [if_pos hemp] at he; exact hacc e he
        · rw [if_neg hemp] at he
          by_cases hbne : (info.routeId != rid) = true
          · rw [if_pos hbne] at he; exact hacc e he
          · rw [if_neg hbne] at he
            have hrid : info.routeId = rid := by
              by_contra hne
              exact hbne (bne_iff_ne.mpr hne)
            exact foldl_stopStep_visitOnTrip hav caches vId rid tid
              (vTs.getD fa) fa lat lon info allowed htrip hrid hstops
              allowed (fun x hx => hx) acc hacc e he

theorem recordStopVisits_visitOnTrip (hav : DistFn) (caches : StaticCaches)
    (inside : InsideSet) (fa : Date) (vehicles : List Vehicle) :
    ∀ e ∈ (recordStopVisits hav caches inside fa vehicles).2, visitOnTrip caches e := by
  intro e he
  unfold recordStopVisits at he
  by_cases hemp : caches.stopsCache.isEmpty = true
  · rw [if_pos hemp] at he
    cases he
  · rw [if_neg hemp] at he
    suffices aux : ∀ (vs : List Vehicle) (acc : InsideSet × List StopVisitEvent),
        (∀ e2 ∈ acc.2, visitOnTrip caches e2) →
        ∀ e2 ∈ (vs.foldl (processVehicle hav caches fa) acc).2, visitOnTrip caches e2 by
      exact aux vehicles (inside, []) (by intro e2 he2; cases he2) e he
    intro vs
    induction vs with
    | nil => intro acc hacc e2 he2; exact hacc e2 he2
    | cons v rest ih =>
      intro acc hacc e2 he2
      simp only [List.foldl_cons] at he2
      exact ih _ (processVehicle_visitOnTrip hav caches fa acc v hacc) e2 he2

/-- C2: skip invariant of recordStopVisits. A vehicle lacking a trip
identifier, or whose trip is unknown to either cache, or whose trip stop
set is empty, or whose cached trip route differs from the reported route,
contributes no StopVisit and leaves the containment set and event list of
the cycle unchanged; consequently every emitted StopVisit is for a
(vehicle, stop) pair whose stop belongs to the vehicle trip stop set with
the trip route equal to the recorded reported route. -/
theorem recordStopVisits_skip_invariant :
    (∀ (hav : DistFn) (caches : StaticCaches) (fetchedAt : Date)
       (acc : InsideSet × List StopVisitEvent) (v : Vehicle),
      (v.trip_id = none ∨
        ∃ tid, v.trip_id = some tid ∧
          (mapGet caches.tripByIdCache tid = none ∨
           mapGet caches.stopIdsByTripId tid = none ∨
           mapGet caches.stopIdsByTripId tid = some [] ∨
           ∃ info, mapGet caches.tripByIdCache tid = some info ∧
             v.route_id ≠ some info.routeId)) →
      processVehicle hav caches fetchedAt acc v = acc) ∧
    (∀ (hav : DistFn) (caches : StaticCaches) (inside : InsideSet) (fetchedAt : Date)
       (vehicles : List Vehicle),
      ∀ e ∈ (recordStopVisits hav caches inside fetchedAt vehicles).2,
        visitOnTrip caches e) := by
  constructor
  · intro hav caches fetchedAt acc v h
    unfold processVehicle
    rcases v with ⟨vId, vLabel, vLat, vLon, vTs, vSpeed, vRid, vTid, vVt, vBa, vWa⟩
    cases vLat with
    | none => rfl
    | some lat =>
    cases vLon with
    | none => rfl
    | some lon =>
    cases vRid with
    | none => rfl
    | some rid =>
    cases vTid with
    | none => rfl
    | some tid =>
    dsimp only
    rcases h with h | ⟨tid2, htid2, hcase⟩
    · cases h
    · obtain rfl : tid = tid2 := by injection htid2
      by_cases hte : tid = ("")
      · rw [if_pos hte]
      · rw [if_neg hte]
        rcases hcase with h1 | h2 | h3 | ⟨info, hinfo, hne⟩
        · rw [h1]
        · rw [h2]
          cases mapGet caches.tripByIdCache tid <;> rfl
        · rw [h3]
          cases mapGet caches.tripByIdCache tid <;> rfl
        · rw [hinfo]
          cases hsi : mapGet caches.stopIdsByTripId tid with
          | none => rfl
          | some allowed =>
            dsimp only
            by_cases hemp : allowed.isEmpty = true
            · rw [if_pos hemp]
            · rw [if_neg hemp]
              have hb : (info.routeId != rid) = true := by
                refine bne_iff_ne.mpr ?_
                intro hx
                exact hne (by rw [hx])
              rw [if_pos hb]
  · exact recordStopVisits_visitOnTrip

/-- Witness for C2: a vehicle with no trip identifier changes nothing, and
a concrete emitted exit event is for a stop of the vehicle trip with
matching route. -/
theorem recordStopVisits_skip_invariant_witness :
    processVehicle latDist (singleStopCaches sampleStop ("t1") ⟨7, 0⟩)
      ⟨2026, 10, 12, 8, 0, 0⟩ ([], [])
      ({ probeVehicle 1 7 ("t1") 0 0 with trip_id := none }) = ([], []) ∧
    visitOnTrip (singleStopCaches sampleStop ("t1") ⟨7, 0⟩)
      { stopId := 42, routeId := 7, tripId := ("t1"), vehicleId := 1,
        observedAt := ⟨2026, 10, 12, 8, 0, 0⟩, fetchedAt := ⟨2026, 10, 12, 8, 0, 0⟩,
        latitude := 65, longitude := 0, distanceMeters := 65 } :=
  ⟨recordStopVisits_skip_invariant.1 latDist
      (singleStopCaches sampleStop ("t1") ⟨7, 0⟩) ⟨2026, 10, 12, 8, 0, 0⟩ ([], [])
      ({ probeVehicle 1 7 ("t1") 0 0 with trip_id := none }) (Or.inl rfl),
   recordStopVisits_skip_invariant.2 latDist
      (singleStopCaches sampleStop ("t1") ⟨7, 0⟩) [(1, 42)] ⟨2026, 10, 12, 8, 0, 0⟩
      [probeVehicle 1 7 ("t1") 65 0]
      { stopId := 42, routeId := 7, tripId := ("t1"), vehicleId := 1,
        observedAt := ⟨2026, 10, 12, 8, 0, 0⟩, fetchedAt := ⟨2026, 10, 12, 8, 0, 0⟩,
        latitude := 65, longitude := 0, distanceMeters := 65 } (by decide)⟩

theorem dateMin_instant_le_left (a b : Date) : (dateMin a b).instant ≤ a.instant := by
  unfold dateMin
  split_ifs with h
  · exact le_refl _
  · omega

theorem dateMax_instant_le_right (a b : Date) : a.instant ≤ (dateMax a b).instant := by
  unfold dateMax
  split_ifs with h
  · exact h
  · exact le_refl _

theorem dateMin_absorb (a t : Date) : dateMin (dateMin a t) t = dateMin a t := by
  unfold dateMin
  split_ifs <;> rfl

theorem dateMax_absorb (a t : Date) : dateMax (dateMax a t) t = dateMax a t := by
  unfold dateMax
  split_ifs <;> rfl

theorem statsWidened_refl (r : StatsRow) (t : Date) : statsWidened r t r :=
  ⟨rfl, rfl, le_refl _, le_refl _, Or.inl rfl, Or.inl rfl⟩

theorem upsertStatsRow_preserves (r : StatsRow) (t : Date) (day : DayKey) (rid : Int)
    (tbl : List StatsRow) (h : ∃ r2 ∈ tbl, statsWidened r t r2) :
    ∃ r2 ∈ upsertStatsRow tbl day rid t, statsWidened r t r2 := by
  obtain ⟨r2, hmem, hw⟩ := h
  unfold upsertStatsRow
  split_ifs with hany
  · refine ⟨if r2.day == day && r2.routeId == rid then
      { r2 with firstSeenAt := dateMin r2.firstSeenAt t,
                lastSeenAt := dateMax r2.lastSeenAt t } else r2, ?_, ?_⟩
    · have := List.mem_map_of_mem (fun x =>
        if x.day == day && x.routeId == rid then
          { x with firstSeenAt := dateMin x.firstSeenAt t,
                   lastSeenAt := dateMax x.lastSeenAt t } else x) hmem
      simpa using this
    · by_cases hc : (r2.day == day && r2.routeId == rid) = true
      · rw [if_pos hc]
        obtain ⟨hd, hr, hf, hl, hfd, hld⟩ := hw
        refine ⟨hd, hr, ?_, ?_, ?_, ?_⟩
        · exact le_trans (dateMin_instant_le_left r2.firstSeenAt t) hf
        · exact le_trans hl (dateMax_instant_le_right r2.lastSeenAt t)
        · rcases hfd with hfd | hfd
          · exact Or.inr (by rw [hfd])
          · exact Or.inr (by rw [hfd, dateMin_absorb])
        · rcases hld with hld | hld
          · exact Or.inr (by rw [hld])
          · exact Or.inr (by rw [hld, dateMax_absorb])
      · rw [if_neg hc]
        exact hw
  · exact ⟨r2, List.mem_append_left _ hmem, hw⟩

/-- C8: RouteDailyStats widening. For every poll cycle and every prior row
of route_daily_stats, the upserted table contains a row with the same
(day, route) key whose first_seen_at only decreased and last_seen_at only
increased, each value being either the prior value or exactly the extremal
min/max merge with the cycle fetch time — never a non-extremal value. -/
theorem upsertRouteDailyStats_widening (fetchedAt : Date) (vehicles : List Vehicle)
    (table : List StatsRow) (r : StatsRow) (hr : r ∈ table) :
    ∃ r2 ∈ upsertRouteDailyStats fetchedAt vehicles table, statsWidened r fetchedAt r2 := by
  simp only [upsertRouteDailyStats]
  split_ifs with hkeys
  · exact ⟨r, hr, statsWidened_refl r fetchedAt⟩
  · suffices aux : ∀ (ks : List Int) (tbl : List StatsRow),
        (∃ r2 ∈ tbl, statsWidened r fetchedAt r2) →
        ∃ r2 ∈ ks.foldl (fun tbl rid =>
          upsertStatsRow tbl (localDateKey fetchedAt) rid fetchedAt) tbl,
          statsWidened r fetchedAt r2 by
      exact aux (byRouteKeys vehicles) table ⟨r, hr, statsWidened_refl r fetchedAt⟩
    intro ks
    induction ks with
    | nil => intro tbl h; exact h
    | cons k rest ih =>
      intro tbl h
      simp only [List.foldl_cons]
      exact ih _ (upsertStatsRow_preserves r fetchedAt (localDateKey fetchedAt) k tbl h)

/-- Witness for C8: a concrete prior row is widened by a later cycle. -/
theorem upsertRouteDailyStats_widening_witness :
    ∃ r2 ∈ upsertRouteDailyStats ⟨2026, 10, 12, 9, 0, 0⟩
        [probeVehicle 1 7 ("t1") 0 0]
        [{ day := (2026, 10, 12), routeId := 7,
           firstSeenAt := ⟨2026, 10, 12, 8, 0, 0⟩,
           lastSeenAt := ⟨2026, 10, 12, 8, 30, 0⟩ }],
      statsWidened
        { day := (2026, 10, 12), routeId := 7,
          firstSeenAt := ⟨2026, 10, 12, 8, 0, 0⟩,
          lastSeenAt := ⟨2026, 10, 12, 8, 30, 0⟩ } ⟨2026, 10, 12, 9, 0, 0⟩ r2 :=
  upsertRouteDailyStats_widening ⟨2026, 10, 12, 9, 0, 0⟩ [probeVehicle 1 7 ("t1") 0 0]
    [{ day := (2026, 10, 12), routeId := 7,
       firstSeenAt := ⟨2026, 10, 12, 8, 0, 0⟩,
       lastSeenAt := ⟨2026, 10, 12, 8, 30, 0⟩ }]
    { day := (2026, 10, 12), routeId := 7,
      firstSeenAt := ⟨2026, 10, 12, 8, 0, 0⟩,
      lastSeenAt := ⟨2026, 10, 12, 8, 30, 0⟩ } (by simp)

theorem historyByRouteOf_nil_visits (dayKeys : List (DayKey × Bool)) :
    historyByRouteOf dayKeys [] = [] := by
  have aux : ∀ (dk : List (DayKey × Bool)) (acc : List (Int × List (List ℚ))),
      dk.foldl (fun hbr day =>
        if day.2 then hbr
        else
          match mapGet ([] : List (DayKey × List (Int × RouteTimes))) day.1 with
          | none => hbr
          | some dayMap =>
            dayMap.foldl (fun hbr2 p =>
              mapUpsert hbr2 p.1 [] (fun seqs => seqs ++ [sortAsc p.2.times])) hbr) acc
        = acc := by
    intro dk
    induction dk with
    | nil => intro acc; rfl
    | cons d ds ih =>
      intro acc
      simp only [List.foldl_cons]
      have hstep : (if d.2 then acc
          else
            match mapGet ([] : List (DayKey × List (Int × RouteTimes))) d.1 with
            | none => acc
            | some dayMap =>
              dayMap.foldl (fun hbr2 p =>
                mapUpsert hbr2 p.1 [] (fun seqs => seqs ++ [sortAsc p.2.times])) acc)
          = acc := by
        obtain ⟨k, b⟩ := d
        cases b <;> rfl
      rw [hstep]
      exact ih acc
  unfold historyByRouteOf
  exact aux dayKeys []

theorem buildDays_no_visits (dayKeys : List (DayKey × Bool)) (now : ℚ) :
    buildDays dayKeys now [] = dayKeys.map (fun day =>
      { date := day.1, isToday := day.2, points := [] }) := by
  simp only [buildDays]
  have hvbd : visitsByDayOf dayKeys [] = [] := rfl
  rw [hvbd, historyByRouteOf_nil_visits]
  apply List.map_congr_left
  intro day hday
  obtain ⟨k, b⟩ := day
  cases b <;> rfl

/-- C6 counterexample: for a known stop with zero StopVisit history in the
7-day window the handler succeeds, but the days field holds one entry per
window day — seven of them — not an empty list. -/
theorem stopAnalytics_zero_history_counterexample :
    (resultDays (stopAnalyticsResult [sampleStop] (some 42) scenarioDayKeys 490 []
      [7])).map List.length = some 7 := by
  decide

/-- C6 amended: for a known stop with zero StopVisit history in the 7-day
window the stop-analytics endpoint succeeds (no error) and returns a days
list with one entry per day of the window, each carrying an empty points
list. -/
theorem stopAnalytics_zero_history (stopsTable : List Stop) (sid : Int) (st : Stop)
    (dayKeys : List (DayKey × Bool)) (now : ℚ) (knownRouteIds : List Int)
    (hfind : stopsTable.find? (fun x => x.stop_id == sid) = some st) :
    stopAnalyticsResult stopsTable (some sid) dayKeys now [] knownRouteIds =
      StopAnalyticsResult.ok st (dayKeys.map (fun day =>
        { date := day.1, isToday := day.2, points := [] })) := by
  unfold stopAnalyticsResult
  dsimp only
  rw [hfind]
  simp only [List.filter_nil]
  rw [buildDays_no_visits]

/-- Witness for C6: the concrete known stop 42 with empty history. -/
theorem stopAnalytics_zero_history_witness :
    stopAnalyticsResult [sampleStop] (some 42) scenarioDayKeys 490 [] [] =
      StopAnalyticsResult.ok sampleStop (scenarioDayKeys.map (fun day =>
        { date := day.1, isToday := day.2, points := [] })) :=
  stopAnalytics_zero_history [sampleStop] 42 sampleStop scenarioDayKeys 490 []
    (by rfl)

theorem mkTodayPoints_observed (dm : List (Int × RouteTimes))
    (pbr : List (Int × List ℚ)) (now : ℚ) (r : Int) (rt : RouteTimes)
    (hmem : (r, rt) ∈ dm) (hne : rt.times ≠ []) :
    ({ routeId := r, minutes := sortAsc rt.times, predicted := false } : Point) ∈
      mkTodayPoints (some dm) pbr now := by
  unfold mkTodayPoints
  apply List.mem_append_left
  apply List.mem_filterMap.mpr
  exact ⟨(r, rt), hmem, by rw [if_neg hne]⟩

theorem mkTodayPoints_predicted_iff (dmo : Option (List (Int × RouteTimes)))
    (pbr : List (Int × List ℚ)) (now : ℚ) (r : Int) (ms : List ℚ) :
    ({ routeId := r, minutes := ms, predicted := true } : Point) ∈
        mkTodayPoints dmo pbr now ↔
      ∃ pred, (r, pred) ∈ pbr ∧
        ms = pred.filter (fun value => decide (now < value)) ∧ ms ≠ [] := by
  unfold mkTodayPoints
  constructor
  · intro h
    rcases List.mem_append.mp h with h | h
    · exfalso
      cases dmo with
      | none => simp at h
      | some dm =>
        rcases List.mem_filterMap.mp h with ⟨p, hp, hf⟩
        by_cases hc : p.2.times = []
        · rw [if_pos hc] at hf
          cases hf
        · rw [if_neg hc] at hf
          simp at hf
    · rcases List.mem_filterMap.mp h with ⟨p, hp, hf⟩
      by_cases hc : p.2.filter (fun value => decide (now < value)) = []
      · rw [if_pos hc] at hf
        cases hf
      · rw [if_neg hc] at hf
        simp only [Option.some.injEq, Point.mk.injEq] at hf
        obtain ⟨h1, h2, h3⟩ := hf
        refine ⟨p.2, ?_, h2.symm, ?_⟩
        · rw [← h1]
          simpa using hp
        · rw [← h2]
          exact hc
  · rintro ⟨pred, hpred, hms, hne⟩
    apply List.mem_append_right
    apply List.mem_filterMap.mpr
    refine ⟨(r, pred), hpred, ?_⟩
    have hfe : pred.filter (fun value => decide (now < value)) = ms := hms.symm
    rw [if_neg (by rw [hfe]; exact hne)]
    rw [hfe]

theorem mkTodayPoints_future (dmo : Option (List (Int × RouteTimes)))
    (pbr : List (Int × List ℚ)) (now : ℚ) :
    ∀ p ∈ mkTodayPoints dmo pbr now, p.predicted = true → ∀ m ∈ p.minutes, now < m := by
  intro p hp hpred m hm
  rcases List.mem_append.mp hp with h | h
  · exfalso
    cases dmo with
    | none => simp at h
    | some dm =>
      rcases List.mem_filterMap.mp h with ⟨q, hq, hf⟩
      by_cases hc : q.2.times = []
      · rw [if_pos hc] at hf
        cases hf
      · rw [if_neg hc] at hf
        injection hf with hf2
        rw [← hf2] at hpred
        cases hpred
  · rcases List.mem_filterMap.mp h with ⟨q, hq, hf⟩
    by_cases hc : q.2.filter (fun value => decide (now < value)) = []
    · rw [if_pos hc] at hf
      cases hf
    · rw [if_neg hc] at hf
      injection hf with hf2
      rw [← hf2] at hm
      simp only at hm
      have := List.mem_filter.mp hm
      exact of_decide_eq_true this.2

theorem historyByRouteOf_scenario : historyByRouteOf scenarioDayKeys
    [((2026, 10, 11), [(7, ⟨[481, 496], false⟩)]),
     ((2026, 10, 12), [(7, ⟨[483], false⟩)])] = [(7, [[481, 496]])] := by
  norm_num [historyByRouteOf, scenarioDayKeys, mapGet, mapUpsert, sortAsc, insertAsc]

theorem buildPredictedTimes_scenario : buildPredictedTimes [[481, 496]] = [481, 496] := by
  simp only [buildPredictedTimes]
  rw [if_neg (by simp)]
  norm_num [sortAsc, insertAsc, List.range_succ]
  simp only [percentile]
  norm_num [sortAsc, insertAsc, ratFloor, ratCeil]

/-- C5: today's analytics points are exactly the runs observed today
(non-predicted) plus, per route, the entries of the predicted sequence
whose time of day is strictly later than now (predicted); past unobserved
predicted entries appear nowhere. In the concrete scenario — route 7 with
visits 08:01 and 08:16 yesterday and 08:03 today at current time 08:10 —
the today entry holds the actual point 08:03 and one predicted point 08:16,
with nothing for the past 08:01 slot. -/
theorem stopAnalytics_today_points :
    (buildDays scenarioDayKeys 490 scenarioVisits =
      [{ date := (2026, 10, 6), isToday := false, points := [] },
       { date := (2026, 10, 7), isToday := false, points := [] },
       { date := (2026, 10, 8), isToday := false, points := [] },
       { date := (2026, 10, 9), isToday := false, points := [] },
       { date := (2026, 10, 10), isToday := false, points := [] },
       { date := (2026, 10, 11), isToday := false,
         points := [{ routeId := 7, minutes := [481, 496], predicted := false }] },
       { date := (2026, 10, 12), isToday := true,
         points := [{ routeId := 7, minutes := [483], predicted := false },
                    { routeId := 7, minutes := [496], predicted := true }] }]) ∧
    ∀ (dayKeys : List (DayKey × Bool)) (now : ℚ) (visits : List Visit) (e : DayEntry),
      e ∈ buildDays dayKeys now visits → e.isToday = true →
      ((∀ dm r rt, mapGet (visitsByDayOf dayKeys visits) e.date = some dm →
          (r, rt) ∈ dm → rt.times ≠ [] →
          ({ routeId := r, minutes := sortAsc rt.times, predicted := false } : Point)
            ∈ e.points) ∧
       (∀ r ms, ({ routeId := r, minutes := ms, predicted := true } : Point) ∈ e.points ↔
          ∃ pred, (r, pred) ∈ predictedByRouteOf
              (historyByRouteOf dayKeys (visitsByDayOf dayKeys visits)) ∧
            ms = pred.filter (fun value => decide (now < value)) ∧ ms ≠ []) ∧
       (∀ p ∈ e.points, p.predicted = true → ∀ m ∈ p.minutes, now < m)) := by
  constructor
  · have h1 : visitsByDayOf scenarioDayKeys scenarioVisits =
        [((2026, 10, 11), [(7, ⟨[481, 496], false⟩)]),
         ((2026, 10, 12), [(7, ⟨[483], false⟩)])] := by
      norm_num [visitsByDayOf, scenarioDayKeys, scenarioVisits, mapUpsert, localDateKey,
        timeToMinutes]
    simp only [buildDays, h1, historyByRouteOf_scenario, predictedByRouteOf,
      List.map_cons, List.map_nil, buildPredictedTimes_scenario]
    norm_num [scenarioDayKeys, mkTodayPoints, mkPastPoints, mapGet, sortAsc, insertAsc]
    norm_num [List.filterMap_cons, sortAsc, insertAsc]
    simp
  · intro dayKeys now visits e he htoday
    simp only [buildDays, List.mem_map] at he
    obtain ⟨day, hday, heq⟩ := he
    by_cases hb : day.2 = true
    · rw [if_pos hb] at heq
      subst heq
      refine ⟨?_, ?_, ?_⟩
      · intro dm r rt hget hmem hne
        simp only at hget ⊢
        rw [hget]
        exact mkTodayPoints_observed dm _ now r rt hmem hne
      · intro r ms
        exact mkTodayPoints_predicted_iff _ _ now r ms
      · exact mkTodayPoints_future _ _ now
    · rw [if_neg hb] at heq
      subst heq
      simp only at htoday
      exact absurd htoday hb

/-- Witness for C5: in the scenario the predicted 08:16 point of the today
entry is strictly in the future of 08:10. -/
theorem stopAnalytics_today_points_witness : (490 : ℚ) < 496 := by
  have h := stopAnalytics_today_points
  have hmem : DayEntry.mk (2026, 10, 12) true
      [Point.mk 7 [483] false, Point.mk 7 [496] true] ∈
      buildDays scenarioDayKeys 490 scenarioVisits := by
    rw [h.1]
    simp
  exact (h.2 scenarioDayKeys 490 scenarioVisits _ hmem rfl).2.2
    (Point.mk 7 [496] true) (by simp) rfl 496 (by simp)

end TransportMap
